import Mathlib

/-!
Shallow embedding of `scripts/servers/server.py` (FLUX Audio Visualizer local
development server) and proofs about its specified behaviour.

The server subclasses `http.server.SimpleHTTPRequestHandler` with two
overrides (`end_headers` adds CORS headers, `guess_type` forces the MIME type
of `.js` files) and a `main` function that changes directory, prints a banner,
binds a TCP socket, tries to open a browser, serves forever, and classifies
startup failures.

Pure parts (`end_headers`, `guess_type`) are embedded as pure functions; the
stock resolver inherited from the standard library handler is an abstract
parameter, exactly as the code treats it (`super().guess_type(path)`).
`main`'s side effects are embedded as a trace of effects, parameterised by an
environment that decides the outcome of the fallible operations (socket bind,
browser launch, the blocking serve loop).
-/

namespace FluxServer

/-- `HOST = 'localhost'` (configuration constant). -/
def HOST : String := "localhost"

/-- `PORT = 8000` (configuration constant). -/
def PORT : Nat := 8000

/-- A response header: name and value, as passed to `self.send_header`. -/
abbrev Header := String × String

/-- Python's `str.endswith(post)`: the last `len(post)` characters of `s`
equal `post` (false when `s` is shorter than `post`). -/
def endswith (s post : String) : Bool :=
  s.data.drop (s.data.length - post.data.length) == post.data

/-- The three headers appended by `FluxHTTPRequestHandler.end_headers` via
`self.send_header(...)`, in source order. -/
def corsHeaders : List Header :=
  [("Access-Control-Allow-Origin", "*"),
   ("Access-Control-Allow-Methods", "GET, POST, OPTIONS"),
   ("Access-Control-Allow-Headers", "*")]

/-- `super().end_headers()`: the parent handler finalises and sends exactly
the headers buffered so far (it adds no header of its own; it only flushes
the buffer to the client). Its result is the list of headers sent. -/
def superEndHeaders (buffered : List Header) : List Header :=
  buffered

/-- `FluxHTTPRequestHandler.end_headers`: appends the three CORS headers to
whatever headers the standard handler already buffered, then delegates to
`super().end_headers()`. The argument is the buffer of headers already set
for the response; the result is the list of headers actually sent. -/
def end_headers (buffered : List Header) : List Header :=
  superEndHeaders (buffered ++ corsHeaders)

/-- `FluxHTTPRequestHandler.guess_type`: consults the stock resolver
(`super().guess_type(path)`, abstracted as the parameter `stock`, returning a
`(mimetype, encoding)` pair as the code unpacks it), then overrides the
mimetype with `'application/javascript'` when the path ends in `'.js'`,
keeping the resolver's encoding. -/
def guess_type (stock : String → String × Option String) (path : String) :
    String × Option String :=
  match stock path with
  | (mimetype, encoding) =>
    if endswith path ".js" then ("application/javascript", encoding)
    else (mimetype, encoding)

/-- One observable side effect of `main`. -/
inductive Effect where
  | chdir (dir : String)
  | printLine (s : String)
  | bindSocket (host : String) (port : Nat)
  | openBrowser (url : String)
  | serveForever
  deriving DecidableEq, Repr

/-- Outcome of `socketserver.TCPServer((HOST, PORT), ...)`: either the bind
succeeds or it raises `OSError` with some errno. -/
inductive BindOutcome where
  | ok
  | osError (errno : Nat)
  deriving DecidableEq, Repr

/-- How the blocking `httpd.serve_forever()` eventually terminates: a
`KeyboardInterrupt` (Ctrl+C) or an `OSError` with some errno. -/
inductive ServeOutcome where
  | keyboardInterrupt
  | osError (errno : Nat)
  deriving DecidableEq, Repr

/-- The environment `main` runs in: the directory containing the script
(`Path(__file__).parent`), and the outcomes of the fallible operations. -/
structure Env where
  scriptDir : String
  bindOutcome : BindOutcome
  browserRaises : Bool
  serveOutcome : ServeOutcome
  deriving DecidableEq, Repr

/-- `f'http://{HOST}:{PORT}'`, the URL passed to `webbrowser.open`. -/
def rootUrl : String :=
  "http://" ++ HOST ++ ":" ++ toString PORT

/-- The lines printed before the bind attempt (banner). -/
def startupLines (scriptDir : String) : List String :=
  ["🎵 FLUX Audio Visualizer - Local Server",
   String.mk (List.replicate 50 '='),
   "Starting server at http://" ++ HOST ++ ":" ++ toString PORT,
   "Serving files from: " ++ scriptDir,
   ""]

/-- The lines printed after a successful bind, before the browser attempt. -/
def serveBannerLines : List String :=
  ["✅ Server started successfully!",
   "",
   "📋 Instructions:",
   "1. Keep this terminal window open",
   "2. Open Chrome and go to: http://localhost:8000",
   "3. Click the 🎵 audio button and follow the setup",
   "4. Press Ctrl+C here to stop the server",
   "",
   "🌐 Available URLs:",
   "  Main FLUX:           http://" ++ HOST ++ ":" ++ toString PORT ++ "/",
   "  Debug Status:        http://" ++ HOST ++ ":" ++ toString PORT ++ "/debug-status.html",
   "  WASM Test:           http://" ++ HOST ++ ":" ++ toString PORT ++ "/test-wasm-loading.html",
   "  Fallback Physics:    http://" ++ HOST ++ ":" ++ toString PORT ++ "/test-fallback-physics.html",
   "  PIXI Fallback:       http://" ++ HOST ++ ":" ++ toString PORT ++ "/test-pixi-fallback.html",
   "  Chrome Launcher:     http://" ++ HOST ++ ":" ++ toString PORT ++ "/launch-in-chrome.html",
   "  Browser Test:        http://" ++ HOST ++ ":" ++ toString PORT ++ "/test-browser-compatibility.html",
   "  PIXI CDN Test:       http://" ++ HOST ++ ":" ++ toString PORT ++ "/test-pixi-cdn.html",
   "  Simple Demo:         http://" ++ HOST ++ ":" ++ toString PORT ++ "/demo-two-click-simple.html",
   "  Two-Click Test:      http://" ++ HOST ++ ":" ++ toString PORT ++ "/test-two-click-audio.html",
   ""]

/-- Message printed when `webbrowser.open` succeeded. -/
def openingLine : String := "🚀 Opening FLUX in your default browser..."

/-- Fallback message printed when `webbrowser.open` raised. -/
def fallbackLine : String :=
  "💡 Please manually open your browser and navigate to the URL above"

/-- Lines printed between the browser attempt and `serve_forever()`. -/
def preServeLines : List String :=
  ["", "Server is running... Press Ctrl+C to stop"]

/-- `e.errno == 48 or e.errno == 10048`: the code's classification of an
`OSError` as "address already in use". -/
def isAddrInUse (errno : Nat) : Bool :=
  errno == 48 || errno == 10048

/-- The diagnostic lines of the address-already-in-use branch. -/
def addrInUseLines : List String :=
  ["❌ Port " ++ toString PORT ++ " is already in use!",
   "",
   "Solutions:",
   "1. Stop any other server running on port " ++ toString PORT,
   "2. Or open your browser and go to: http://localhost:8000",
   "3. Or edit this script to use a different port"]

/-- `f'❌ Server error: {e}'`: the generic branch's single line, showing the
raw `OSError` (rendered here by its errno). -/
def serverErrorLine (errno : Nat) : String :=
  "❌ Server error: [Errno " ++ toString errno ++ "]"

/-- The `except OSError` handler's printed lines: the classified diagnostic
when the errno means address-in-use, the raw error otherwise. -/
def osErrorLines (errno : Nat) : List String :=
  if isAddrInUse errno then addrInUseLines else [serverErrorLine errno]

/-- Lines printed by the `except KeyboardInterrupt` handler. -/
def interruptLines : List String :=
  ["\n🛑 Server stopped by user",
   "Thanks for using FLUX! 🎵"]

/-- `main()`: the whole effect trace, paired with the process exit code
(`sys.exit(1)` in the `OSError` handler; normal return, hence exit status 0,
otherwise — including the `KeyboardInterrupt` path). -/
def main (env : Env) : List Effect × Nat :=
  let pre : List Effect :=
    Effect.chdir env.scriptDir ::
      ((startupLines env.scriptDir).map Effect.printLine ++
        [Effect.bindSocket HOST PORT])
  match env.bindOutcome with
  | BindOutcome.osError errno =>
      (pre ++ (osErrorLines errno).map Effect.printLine, 1)
  | BindOutcome.ok =>
      let served : List Effect :=
        pre ++ serveBannerLines.map Effect.printLine ++
          [Effect.openBrowser rootUrl,
           Effect.printLine (if env.browserRaises then fallbackLine else openingLine)] ++
          preServeLines.map Effect.printLine ++
          [Effect.serveForever]
      match env.serveOutcome with
      | ServeOutcome.keyboardInterrupt =>
          (served ++ interruptLines.map Effect.printLine, 0)
      | ServeOutcome.osError errno =>
          (served ++ (osErrorLines errno).map Effect.printLine, 1)

/-- Recogniser for `chdir` effects. -/
def Effect.isChdir : Effect → Bool
  | Effect.chdir _ => true
  | _ => false

end FluxServer

namespace FluxServer

/-- C1: every finalised response carries the three CORS headers with exactly
the specified values, whatever headers (path-, method- and status-dependent)
the standard handler buffered before `end_headers` ran. -/
theorem cors_headers_on_every_response (buffered : List Header) :
    ("Access-Control-Allow-Origin", "*") ∈ end_headers buffered ∧
    ("Access-Control-Allow-Methods", "GET, POST, OPTIONS") ∈ end_headers buffered ∧
    ("Access-Control-Allow-Headers", "*") ∈ end_headers buffered := by
  simp [end_headers, superEndHeaders, corsHeaders]

/-- C10: `end_headers` only appends the three CORS headers and then delegates
to the parent's `end_headers`; every header buffered earlier is left in place,
unchanged and still sent. -/
theorem end_headers_frame (buffered : List Header) :
    end_headers buffered = superEndHeaders (buffered ++ corsHeaders) ∧
    (∀ h ∈ buffered, h ∈ end_headers buffered) ∧
    (end_headers buffered).take buffered.length = buffered := by
  refine ⟨rfl, ?_, ?_⟩
  · intro h hh
    simp [end_headers, superEndHeaders]
    exact Or.inl hh
  · simp [end_headers, superEndHeaders, List.take_append]

/-- Witness for C10 at a concrete buffer. -/
theorem end_headers_frame_witness :
    ("Content-Type", "text/html") ∈ end_headers [("Content-Type", "text/html")] :=
  (end_headers_frame [("Content-Type", "text/html")]).2.1
    ("Content-Type", "text/html") (by simp)

/-- Helper: whenever the suffix test fails, `guess_type` is the stock
resolver. -/
theorem guess_type_eq_stock (stock : String → String × Option String)
    (path : String) (h : endswith path ".js" = false) :
    guess_type stock path = stock path := by
  unfold guess_type
  rcases hs : stock path with ⟨m, e⟩
  simp [h, hs]

/-- C2: for a path ending in `.js`, `guess_type` discards the stock
resolver's content type and returns `application/javascript`, keeping the
encoding the stock resolver determined. -/
theorem guess_type_js_override (stock : String → String × Option String)
    (path : String) (h : endswith path ".js" = true) :
    guess_type stock path = ("application/javascript", (stock path).2) := by
  unfold guess_type
  rcases hs : stock path with ⟨m, e⟩
  simp [h, hs]

/-- Witness for C2: `app.js` with a stock answer of `text/plain` + gzip. -/
theorem guess_type_js_override_witness :
    guess_type (fun _ => ("text/plain", some "gzip")) "app.js" =
      ("application/javascript", some "gzip") :=
  guess_type_js_override (fun _ => ("text/plain", some "gzip")) "app.js" (by decide)

/-- C5: for a path not ending in `.js`, `guess_type` returns exactly the
stock resolver's answer, both components untouched. -/
theorem guess_type_defers_otherwise (stock : String → String × Option String)
    (path : String) (h : endswith path ".js" = false) :
    guess_type stock path = stock path :=
  guess_type_eq_stock stock path h

/-- Witness for C5: `index.html` with a stock answer of `text/html`. -/
theorem guess_type_defers_otherwise_witness :
    guess_type (fun _ => ("text/html", none)) "index.html" = ("text/html", none) :=
  guess_type_defers_otherwise (fun _ => ("text/html", none)) "index.html" (by decide)

/-- Helper: a string ending in one suffix cannot end in a distinct suffix of
the same length — the two checks compare the same final segment. -/
theorem endswith_false_of_endswith (s p q : String)
    (hlen : p.data.length = q.data.length) (hne : p.data ≠ q.data)
    (h : endswith s p = true) : endswith s q = false := by
  unfold endswith at h ⊢
  have heq : s.data.drop (s.data.length - p.data.length) = p.data := by
    simpa using h
  rw [← hlen, heq]
  simpa using hne

/-- C9: the `.js` suffix test is case-sensitive on the raw path: every path
ending in `.JS`, `.Js` or `.jS` (the casings other than exact lowercase)
fails it and falls through to the stock resolver's answer; lowercase `.js`
passes it. -/
theorem js_check_case_sensitive (stock : String → String × Option String)
    (path : String) :
    (endswith path ".JS" = true → guess_type stock path = stock path) ∧
    (endswith path ".Js" = true → guess_type stock path = stock path) ∧
    (endswith path ".jS" = true → guess_type stock path = stock path) ∧
    endswith "app.js" ".js" = true := by
  refine ⟨?_, ?_, ?_, by decide⟩ <;> intro h <;>
    exact guess_type_eq_stock stock path
      (endswith_false_of_endswith path _ ".js" (by decide) (by decide) h)

/-- Witness for C9: a path ending in uppercase `.JS` gets the stock answer. -/
theorem js_check_case_sensitive_witness :
    guess_type (fun _ => ("text/plain", none)) "app.JS" = ("text/plain", none) :=
  (js_check_case_sensitive (fun _ => ("text/plain", none)) "app.JS").1 (by decide)

/-- Helper: printed lines are never `chdir` effects. -/
theorem filter_isChdir_map_printLine (l : List String) :
    (l.map Effect.printLine).filter Effect.isChdir = [] := by
  induction l with
  | nil => rfl
  | cons a t ih => simp [Effect.isChdir, ih]

/-- C7: the very first effect of `main` is the single working-directory
change, to the directory containing the script itself; no other `chdir`
happens in the whole run, so it precedes the bind and the serve loop. -/
theorem chdir_first_and_only (env : Env) :
    (main env).1.head? = some (Effect.chdir env.scriptDir) ∧
    (main env).1.filter Effect.isChdir = [Effect.chdir env.scriptDir] := by
  rcases env with ⟨d, b, br, so⟩
  cases b <;> cases so <;> cases br <;>
    simp [main, Effect.isChdir, filter_isChdir_map_printLine]

/-- C3: a bind failure whose errno the code classifies as address-in-use
exits with code 1 and prints the dedicated diagnostic naming the port and
remediation steps — output distinct from the generic error branch. -/
theorem addr_in_use_diagnostic (env : Env) (errno : Nat)
    (hb : env.bindOutcome = BindOutcome.osError errno)
    (ha : isAddrInUse errno = true) :
    (main env).2 = 1 ∧
    Effect.printLine ("❌ Port " ++ toString PORT ++ " is already in use!")
      ∈ (main env).1 ∧
    Effect.printLine ("1. Stop any other server running on port " ++ toString PORT)
      ∈ (main env).1 ∧
    (∀ e, isAddrInUse e = false → osErrorLines errno ≠ osErrorLines e) := by
  rcases env with ⟨d, b, br, so⟩
  cases hb
  refine ⟨by simp [main], ?_, ?_, ?_⟩
  · simp [main, osErrorLines, ha, addrInUseLines]
  · simp [main, osErrorLines, ha, addrInUseLines]
  · intro e he hEq
    simp [osErrorLines, ha, he, addrInUseLines] at hEq

/-- Witness for C3: errno 48 (the macOS address-in-use code). -/
theorem addr_in_use_diagnostic_witness :
    (main ⟨"servers", BindOutcome.osError 48, false,
        ServeOutcome.keyboardInterrupt⟩).2 = 1 ∧
    Effect.printLine ("❌ Port " ++ toString PORT ++ " is already in use!")
      ∈ (main ⟨"servers", BindOutcome.osError 48, false,
          ServeOutcome.keyboardInterrupt⟩).1 :=
  ⟨(addr_in_use_diagnostic _ 48 rfl (by decide)).1,
   (addr_in_use_diagnostic _ 48 rfl (by decide)).2.1⟩

/-- C6: every bind-phase `OSError` terminates the process with exit code 1,
whichever diagnostic branch was taken; outside the classified case the raw
error is printed. -/
theorem bind_oserror_exit_one (env : Env) (errno : Nat)
    (hb : env.bindOutcome = BindOutcome.osError errno) :
    (main env).2 = 1 ∧
    (isAddrInUse errno = false →
      Effect.printLine (serverErrorLine errno) ∈ (main env).1) := by
  rcases env with ⟨d, b, br, so⟩
  cases hb
  refine ⟨by simp [main], ?_⟩
  intro h
  simp [main, osErrorLines, h]

/-- Witness for C6: errno 98 (not one of the classified codes). -/
theorem bind_oserror_exit_one_witness :
    (main ⟨"servers", BindOutcome.osError 98, false,
        ServeOutcome.keyboardInterrupt⟩).2 = 1 ∧
    Effect.printLine (serverErrorLine 98)
      ∈ (main ⟨"servers", BindOutcome.osError 98, false,
          ServeOutcome.keyboardInterrupt⟩).1 :=
  ⟨(bind_oserror_exit_one _ 98 rfl).1,
   (bind_oserror_exit_one _ 98 rfl).2 (by decide)⟩

/-- C4: a `KeyboardInterrupt` while serving yields exit code 0 and the
friendly shutdown messages; the serve loop had been entered and the
interrupt is not propagated as an error. -/
theorem keyboard_interrupt_clean_exit (env : Env)
    (hb : env.bindOutcome = BindOutcome.ok)
    (hs : env.serveOutcome = ServeOutcome.keyboardInterrupt) :
    (main env).2 = 0 ∧
    Effect.serveForever ∈ (main env).1 ∧
    Effect.printLine "\n🛑 Server stopped by user" ∈ (main env).1 ∧
    Effect.printLine "Thanks for using FLUX! 🎵" ∈ (main env).1 := by
  rcases env with ⟨d, b, br, so⟩
  cases hb
  cases hs
  refine ⟨by simp [main], ?_, ?_, ?_⟩ <;>
    cases br <;> simp [main, interruptLines]

/-- Witness for C4 at a concrete environment. -/
theorem keyboard_interrupt_clean_exit_witness :
    (main ⟨"servers", BindOutcome.ok, false,
        ServeOutcome.keyboardInterrupt⟩).2 = 0 ∧
    Effect.printLine "\n🛑 Server stopped by user"
      ∈ (main ⟨"servers", BindOutcome.ok, false,
          ServeOutcome.keyboardInterrupt⟩).1 :=
  ⟨(keyboard_interrupt_clean_exit _ rfl rfl).1,
   (keyboard_interrupt_clean_exit _ rfl rfl).2.2.1⟩

/-- C8: a browser-launch failure is swallowed: the run with the failure has
the same exit code as the run without it (for every serve outcome), still
enters the serve loop, and merely prints the informational fallback line. -/
theorem browser_failure_swallowed (d : String) (so : ServeOutcome) :
    (main ⟨d, BindOutcome.ok, true, so⟩).2
      = (main ⟨d, BindOutcome.ok, false, so⟩).2 ∧
    Effect.serveForever ∈ (main ⟨d, BindOutcome.ok, true, so⟩).1 ∧
    Effect.printLine fallbackLine ∈ (main ⟨d, BindOutcome.ok, true, so⟩).1 := by
  cases so <;> simp [main]

end FluxServer
